import Mathlib

/-!
Shallow embedding of `src/app/main.py` of the gitstars service: a cache in
front of the GitHub metadata API.  Pure Lean translations of the cache store
(`save_github_info_into_sqlite`, `get_saved_github_info_from_sqlite`), the
upstream fetch wrapper (`get_repository_info_from_github`) and the
orchestrator (`get_github_info`, `repository_info`), followed by theorems
about the freshness / rate-limit behaviour.

Modelling conventions:
- Collaborator results that the Python code obtains by awaiting I/O are
  passed in explicitly: `quota` stands for the value `get_ratelimits()`
  returns (assumed stable within one request), `fetch` for the upstream
  answer of `gh.repository(owner, repository)`, `now` for
  `int(datetime.timestamp(datetime.now()))` (seconds), and `r` for the value
  `random.random()` would produce.
- `ujson.dumps` / `ujson.loads` round-trip, so serialization is modelled as
  the identity on payload values.
- Python floats are modelled as exact rationals; `int(x)` of a non-negative
  quotient is modelled as natural-number floor division.
- The payload dicts built by the fetch helpers are never empty (they always
  carry an `age` key), so the only falsy payload value occurring in the
  program is the literal `False`; truthiness is modelled accordingly.
-/

namespace Gitstars

/-- A (truthy) repository details dict: the fields the claims need, plus an
opaque `data` component standing for the remaining scalar fields copied from
the GitHub response, and the mutable `age` entry. -/
structure Details where
  name : String
  owner_login : String
  data : Nat
  age : Nat
deriving DecidableEq

/-- A Python value held in (or returned for) a details slot: either the
literal `False` (the failure value of the fetch helpers, also what
`ujson.loads` yields for a stored `"false"`), or a non-empty details dict. -/
inductive PyDetails where
  | pyFalse
  | pyDict (d : Details)
deriving DecidableEq

/-- Python truthiness of a details value (`if not saved_details: ...`). -/
def PyDetails.truthy : PyDetails → Bool
  | .pyFalse => false
  | .pyDict _ => true

/-- Primary key of the `repositories` table: (owner, repository). -/
abbrev Key := String × String

/-- One row of the `repositories` table (`create_database`, lines 330-339):
last write timestamp and the deserialized payload blob. -/
structure Row where
  update_time : Nat
  details_json : PyDetails
deriving DecidableEq

/-- The `repositories` table, newest row first; `REPLACE INTO` keeps at most
one row per primary key. -/
abbrev Store := List (Key × Row)

/-- Row selected for a primary key (`SELECT ... WHERE owner = ? AND
repository = ?`). -/
def Store.find : Store → Key → Option Row
  | [], _ => none
  | (k1, row) :: rest, k => if k1 = k then some row else Store.find rest k

/-- SQLite `REPLACE INTO` against the primary key: delete any row with the
same key, then insert the new one. -/
def Store.replaceInto (s : Store) (k : Key) (row : Row) : Store :=
  (k, row) :: s.filter (fun e => e.1 ≠ k)

/-- `save_github_info_into_sqlite` (lines 281-290), repositories branch
(`repository` is a non-empty string in the repository flow): upsert of
(owner, repository) with `update_time = now` and the serialized payload. -/
def save_github_info_into_sqlite (owner repository : String)
    (details : PyDetails) (now : Nat) (s : Store) : Store :=
  Store.replaceInto s (owner, repository) ⟨now, details⟩

/-- `get_saved_github_info_from_sqlite` (lines 293-309), repositories
branch.  No row → `False`.  Otherwise deserialize the payload; only a truthy
payload gets the `age` entry (minutes, floor of seconds/60) attached — a
falsy payload is returned as-is, with no age. -/
def get_saved_github_info_from_sqlite (owner repository : String)
    (now : Nat) (s : Store) : PyDetails :=
  match Store.find s (owner, repository) with
  | none => .pyFalse
  | some row =>
    match row.details_json with
    | .pyFalse => .pyFalse
    | .pyDict d => .pyDict { d with age := (now - row.update_time) / 60 }

/-- The `core` rate-limit resource returned by `get_ratelimits()`. -/
structure Quota where
  limit : Nat
  remaining : Nat
deriving DecidableEq

/-- Upstream answer for `gh.repository(owner, repository)`: a successful
response, a raised `NotFoundError`, or a repository with `private == True`. -/
inductive FetchOutcome where
  | success (name owner_login : String) (data : Nat)
  | notFoundError
  | privateRepo
deriving DecidableEq

/-- `get_repository_info_from_github` (lines 226-253).  Returns the Python
result together with the number of `gh.repository` calls made (0 when the
absolute rate floor `remaining < 10` short-circuits, 1 otherwise).  On
success the details dict is built with `age = 0`. -/
def get_repository_info_from_github (quota : Quota) (fetch : FetchOutcome) :
    PyDetails × Nat :=
  if quota.remaining < 10 then (.pyFalse, 0)
  else
    match fetch with
    | .notFoundError => (.pyFalse, 1)
    | .privateRepo => (.pyFalse, 1)
    | .success name owner_login data => (.pyDict ⟨name, owner_login, data, 0⟩, 1)

/-- Names bound at module scope of `src/app/main.py` by its import
statements (lines 1-11) and top-level assignments; the global name `random`
referenced on line 202 is not among them. -/
def module_bound_names : List String :=
  ["FastAPI", "HTTPException", "BackgroundTasks", "BaseModel", "UrlStr",
   "List", "CORSMiddleware", "UJSONResponse", "RedirectResponse",
   "datetime", "timedelta", "aiosqlite", "os", "ujson", "Enum",
   "NotFoundError", "logging", "logger", "app"]

/-- The boolean value of the line-202 test `random.random() < chance`
(as it would evaluate if the name `random` were bound): when it is `true`
the function returns the cached payload, otherwise it falls through to the
refresh path. -/
def soft_window_serves_cached (r chance : ℚ) : Bool := r < chance

/-- Configuration read from the environment, with the code's defaults
`CACHE_SOFT_TTL = 60`, `CACHE_HARD_TTL = 600`,
`CACHE_REGENERATE_CHANCE = 10` (used as `10/100`),
`RATELIMIT_PRESERVE = 10`. -/
structure Config where
  cache_soft_ttl : Nat
  cache_hard_ttl : Nat
  cache_regenerate_chance : ℚ
  ratelimit_preserve : Nat

/-- The environment-default configuration. -/
def defaultConfig : Config := ⟨60, 600, 10 / 100, 10⟩

/-- Python exceptions this flow can raise. -/
inductive PyError where
  | nameError (n : String)
  | typeError
deriving DecidableEq

/-- A positional argument of a scheduled background call. -/
inductive PyArg where
  | str (s : String)
  | det (d : PyDetails)
deriving DecidableEq

/-- Positional argument list handed to `background_tasks.add_task`. -/
abbrev SaveArgs := List PyArg

/-- Executing a scheduled `save_github_info_into_sqlite(...)` background
task.  The function has three required positional parameters
(owner, repository, details); calling it with any other argument list
raises `TypeError` before its body runs, leaving the store unchanged. -/
def run_scheduled_save (args : SaveArgs) (now : Nat) (s : Store) :
    Except PyError Store :=
  match args with
  | [.str owner, .str repository, .det details] =>
      .ok (save_github_info_into_sqlite owner repository details now s)
  | _ => .error .typeError

/-- Result of one `get_github_info` call: the returned value, the store
after the call, the background tasks scheduled during the call, and the
number of upstream `gh.repository` fetches made. -/
structure GResult where
  value : PyDetails
  store : Store
  bg : List SaveArgs
  fetches : Nat
deriving DecidableEq

instance instDecEqExcept {ε α : Type} [DecidableEq ε] [DecidableEq α] :
    DecidableEq (Except ε α) := fun a b =>
  match a, b with
  | .ok a1, .ok b1 =>
      if h : a1 = b1 then .isTrue (by rw [h]) else .isFalse (by simp [h])
  | .error e1, .error e2 =>
      if h : e1 = e2 then .isTrue (by rw [h]) else .isFalse (by simp [h])
  | .ok _, .error _ => .isFalse (by simp)
  | .error _, .ok _ => .isFalse (by simp)

/-- `get_github_info` (lines 189-216), repository flow.  Cold (falsy) read →
fetch, synchronous save of whatever the fetch returned, return it.
`age < soft_ttl` → return cached.  `soft_ttl ≤ age < hard_ttl` → the code
evaluates `random.random()`, but `random` is not a bound name, so this
raises `NameError` (modelled by the `module_bound_names` check; the inner
branch is the code as written, reachable only if the name resolved).
Otherwise: veto when the floored remaining percentage is below
`RATELIMIT_PRESERVE`, returning the cached value; else fetch, and either
schedule `add_task(save_github_info_into_sqlite, repository, github_details)`
— only two of the three required arguments (line 213) — or save
synchronously, and return the fetch result. -/
def get_github_info (cfg : Config) (owner repository : String)
    (background_tasks : Bool) (r : ℚ) (quota : Quota) (fetch : FetchOutcome)
    (now : Nat) (s : Store) : Except PyError GResult :=
  match get_saved_github_info_from_sqlite owner repository now s with
  | .pyFalse =>
      let fr := get_repository_info_from_github quota fetch
      .ok ⟨fr.1, save_github_info_into_sqlite owner repository fr.1 now s,
           [], fr.2⟩
  | .pyDict d =>
      let refresh_path : Except PyError GResult :=
        let requests_remaining_percent := quota.remaining * 100 / quota.limit
        if requests_remaining_percent < cfg.ratelimit_preserve then
          .ok ⟨.pyDict d, s, [], 0⟩
        else
          let fr := get_repository_info_from_github quota fetch
          if background_tasks then
            .ok ⟨fr.1, s, [[PyArg.str repository, PyArg.det fr.1]], fr.2⟩
          else
            .ok ⟨fr.1, save_github_info_into_sqlite owner repository fr.1 now s,
                 [], fr.2⟩
      if d.age < cfg.cache_soft_ttl then
        .ok ⟨.pyDict d, s, [], 0⟩
      else if d.age < cfg.cache_hard_ttl then
        if module_bound_names.contains "random" then
          if soft_window_serves_cached r cfg.cache_regenerate_chance then
            .ok ⟨.pyDict d, s, [], 0⟩
          else refresh_path
        else .error (.nameError "random")
      else refresh_path

/-- What the `/repos/{owner}/{repository}` handler surfaces. -/
inductive HTTPResult where
  | payloadOk (d : Details)
  | movedRedirect (owner name : String)
  | httpException404
deriving DecidableEq

/-- `repository_info` (lines 124-145): falsy details → HTTP 404 "Unable to
find repository"; owner/name mismatch → redirect to the canonical path;
otherwise the payload.  The handler always passes a live `BackgroundTasks`
object, so `background_tasks` is truthy. -/
def repository_info (cfg : Config) (owner repository : String) (r : ℚ)
    (quota : Quota) (fetch : FetchOutcome) (now : Nat) (s : Store) :
    Except PyError (HTTPResult × Store × List SaveArgs) :=
  match get_github_info cfg owner repository true r quota fetch now s with
  | .error e => .error e
  | .ok res =>
    match res.value with
    | .pyFalse => .ok (.httpException404, res.store, res.bg)
    | .pyDict d =>
      if owner ≠ d.owner_login ∨ repository ≠ d.name then
        .ok (.movedRedirect d.owner_login d.name, res.store, res.bg)
      else
        .ok (.payloadOk d, res.store, res.bg)

/-! ### Helper lemmas -/

theorem find_replaceInto_self (s : Store) (k : Key) (row : Row) :
    Store.find (Store.replaceInto s k row) k = some row := by
  simp [Store.replaceInto, Store.find]

theorem filter_replaceInto_key (s : Store) (k : Key) (row : Row) :
    ((Store.replaceInto s k row).filter (fun e => e.1 = k)).length = 1 := by
  simp only [Store.replaceInto, List.filter_cons]
  simp only [decide_eq_true_eq, if_pos rfl, List.length_cons]
  have h : (s.filter (fun e => ¬ e.1 = k)).filter (fun e => e.1 = k) = [] := by
    rw [List.filter_eq_nil_iff]
    intro a ha
    have h2 := List.of_mem_filter ha
    simp only [decide_not, Bool.not_eq_true', decide_eq_false_iff_not] at h2
    simp [h2]
  simp [h]

theorem read_of_find_none (owner repository : String) (now : Nat) (s : Store)
    (hfind : Store.find s (owner, repository) = none) :
    get_saved_github_info_from_sqlite owner repository now s = .pyFalse := by
  unfold get_saved_github_info_from_sqlite
  rw [hfind]

theorem read_of_find_falsy (owner repository : String) (now : Nat) (s : Store)
    (row : Row) (hfind : Store.find s (owner, repository) = some row)
    (hfalsy : row.details_json = .pyFalse) :
    get_saved_github_info_from_sqlite owner repository now s = .pyFalse := by
  simp [get_saved_github_info_from_sqlite, hfind, hfalsy]

theorem read_of_find_dict (owner repository : String) (now : Nat) (s : Store)
    (row : Row) (d0 : Details) (hfind : Store.find s (owner, repository) = some row)
    (hdict : row.details_json = .pyDict d0) :
    get_saved_github_info_from_sqlite owner repository now s =
      .pyDict { d0 with age := (now - row.update_time) / 60 } := by
  simp [get_saved_github_info_from_sqlite, hfind, hdict]

theorem random_not_bound : module_bound_names.contains "random" = false := by decide

theorem get_github_info_of_falsy_read (cfg : Config) (owner repository : String)
    (bg : Bool) (r : ℚ) (quota : Quota) (fetch : FetchOutcome) (now : Nat)
    (s : Store)
    (h : get_saved_github_info_from_sqlite owner repository now s = .pyFalse) :
    get_github_info cfg owner repository bg r quota fetch now s =
      .ok ⟨(get_repository_info_from_github quota fetch).1,
           save_github_info_into_sqlite owner repository
             (get_repository_info_from_github quota fetch).1 now s,
           [], (get_repository_info_from_github quota fetch).2⟩ := by
  unfold get_github_info
  rw [h]

theorem get_github_info_of_dict_read (cfg : Config) (owner repository : String)
    (bg : Bool) (r : ℚ) (quota : Quota) (fetch : FetchOutcome) (now : Nat)
    (s : Store) (d : Details)
    (h : get_saved_github_info_from_sqlite owner repository now s = .pyDict d) :
    get_github_info cfg owner repository bg r quota fetch now s =
      (if d.age < cfg.cache_soft_ttl then
        .ok ⟨.pyDict d, s, [], 0⟩
      else if d.age < cfg.cache_hard_ttl then
        .error (.nameError "random")
      else if quota.remaining * 100 / quota.limit < cfg.ratelimit_preserve then
        .ok ⟨.pyDict d, s, [], 0⟩
      else if bg then
        .ok ⟨(get_repository_info_from_github quota fetch).1, s,
             [[PyArg.str repository,
               PyArg.det (get_repository_info_from_github quota fetch).1]],
             (get_repository_info_from_github quota fetch).2⟩
      else
        .ok ⟨(get_repository_info_from_github quota fetch).1,
             save_github_info_into_sqlite owner repository
               (get_repository_info_from_github quota fetch).1 now s,
             [], (get_repository_info_from_github quota fetch).2⟩) := by
  unfold get_github_info
  rw [h]
  simp only [random_not_bound, Bool.false_eq_true, if_false]

/-! ### Claim theorems -/

/-- C9: upsert last-write-wins.  For every key and payloads A then B written
through `save_github_info_into_sqlite`, exactly one record remains for the
key; it holds payload B with `update_time` equal to the second write's
timestamp. -/
theorem upsert_last_write_wins (owner repository : String) (a b : PyDetails)
    (t1 t2 : Nat) (s : Store) :
    Store.find
        (save_github_info_into_sqlite owner repository b t2
          (save_github_info_into_sqlite owner repository a t1 s))
        (owner, repository) = some ⟨t2, b⟩ ∧
    ((save_github_info_into_sqlite owner repository b t2
        (save_github_info_into_sqlite owner repository a t1 s)).filter
      (fun e => e.1 = (owner, repository))).length = 1 :=
  ⟨find_replaceInto_self _ _ _, filter_replaceInto_key _ _ _⟩

/-- C5: for every cached record with `age < softTtl`, `get_github_info`
returns the stored payload (annotated with its age) and never invokes the
upstream collaborator: zero fetches, no background task, store unchanged,
and no quota-dependent path is taken. -/
theorem serve_cached_below_soft_ttl (cfg : Config) (owner repository : String)
    (bg : Bool) (r : ℚ) (quota : Quota) (fetch : FetchOutcome) (now : Nat)
    (s : Store) (row : Row) (d0 : Details)
    (hfind : Store.find s (owner, repository) = some row)
    (hdict : row.details_json = .pyDict d0)
    (hfresh : (now - row.update_time) / 60 < cfg.cache_soft_ttl) :
    get_github_info cfg owner repository bg r quota fetch now s =
      .ok ⟨.pyDict { d0 with age := (now - row.update_time) / 60 }, s, [], 0⟩ := by
  rw [get_github_info_of_dict_read cfg owner repository bg r quota fetch now s _
    (read_of_find_dict owner repository now s row d0 hfind hdict)]
  simp [hfresh]

/-- C5 witness: a record written at time 0 and read at time 1800 s has age
30 min, below the default soft TTL of 60; the cached payload is served with
no fetch. -/
theorem serve_cached_below_soft_ttl_witness :
    Store.find [(("o", "r"), ⟨0, .pyDict ⟨"r", "o", 7, 0⟩⟩)] ("o", "r") =
      some ⟨0, .pyDict ⟨"r", "o", 7, 0⟩⟩ ∧
    (1800 - 0) / 60 < defaultConfig.cache_soft_ttl ∧
    get_github_info defaultConfig "o" "r" true 0 ⟨5000, 4000⟩ .notFoundError 1800
        [(("o", "r"), ⟨0, .pyDict ⟨"r", "o", 7, 0⟩⟩)] =
      .ok ⟨.pyDict ⟨"r", "o", 7, 30⟩, [(("o", "r"), ⟨0, .pyDict ⟨"r", "o", 7, 0⟩⟩)], [], 0⟩ :=
  ⟨by decide, by decide,
    serve_cached_below_soft_ttl defaultConfig "o" "r" true 0 ⟨5000, 4000⟩
      .notFoundError 1800 [(("o", "r"), ⟨0, .pyDict ⟨"r", "o", 7, 0⟩⟩)]
      ⟨0, .pyDict ⟨"r", "o", 7, 0⟩⟩ ⟨"r", "o", 7, 0⟩
      (by decide) (by decide) (by decide)⟩

/-- C7: for a cached record past the hard TTL (a `RefreshRequired`
situation), when the floored remaining percentage is below
`RATELIMIT_PRESERVE` the prior cached payload is returned unchanged — same
payload, age preserved — with no upstream fetch, no background task, and the
cached record unmodified. -/
theorem veto_serves_stale_unchanged (cfg : Config) (owner repository : String)
    (bg : Bool) (r : ℚ) (quota : Quota) (fetch : FetchOutcome) (now : Nat)
    (s : Store) (row : Row) (d0 : Details)
    (hfind : Store.find s (owner, repository) = some row)
    (hdict : row.details_json = .pyDict d0)
    (httl : cfg.cache_soft_ttl ≤ cfg.cache_hard_ttl)
    (hhard : cfg.cache_hard_ttl ≤ (now - row.update_time) / 60)
    (hveto : quota.remaining * 100 / quota.limit < cfg.ratelimit_preserve) :
    get_github_info cfg owner repository bg r quota fetch now s =
      .ok ⟨.pyDict { d0 with age := (now - row.update_time) / 60 }, s, [], 0⟩ := by
  rw [get_github_info_of_dict_read cfg owner repository bg r quota fetch now s _
    (read_of_find_dict owner repository now s row d0 hfind hdict)]
  have h1 : ¬ (now - row.update_time) / 60 < cfg.cache_soft_ttl :=
    Nat.not_lt.mpr (le_trans httl hhard)
  have h2 : ¬ (now - row.update_time) / 60 < cfg.cache_hard_ttl :=
    Nat.not_lt.mpr hhard
  simp [h1, h2, hveto]

/-- C7 witness: age 700 min ≥ hard TTL 600, remaining 250 of 5000 gives a
floored 5 % < 10 % reserve: the stale payload comes back with its age and
nothing else happens. -/
theorem veto_serves_stale_unchanged_witness :
    Store.find [(("o", "r"), ⟨0, .pyDict ⟨"r", "o", 7, 0⟩⟩)] ("o", "r") =
      some ⟨0, .pyDict ⟨"r", "o", 7, 0⟩⟩ ∧
    defaultConfig.cache_hard_ttl ≤ (42000 - 0) / 60 ∧
    250 * 100 / 5000 < defaultConfig.ratelimit_preserve ∧
    get_github_info defaultConfig "o" "r" true 0 ⟨5000, 250⟩ (.success "r" "o" 9)
        42000 [(("o", "r"), ⟨0, .pyDict ⟨"r", "o", 7, 0⟩⟩)] =
      .ok ⟨.pyDict ⟨"r", "o", 7, 700⟩, [(("o", "r"), ⟨0, .pyDict ⟨"r", "o", 7, 0⟩⟩)], [], 0⟩ :=
  ⟨by decide, by decide, by decide,
    veto_serves_stale_unchanged defaultConfig "o" "r" true 0 ⟨5000, 250⟩
      (.success "r" "o" 9) 42000 [(("o", "r"), ⟨0, .pyDict ⟨"r", "o", 7, 0⟩⟩)]
      ⟨0, .pyDict ⟨"r", "o", 7, 0⟩⟩ ⟨"r", "o", 7, 0⟩
      (by decide) (by decide) (by decide) (by decide) (by decide)⟩

/-- C4: for every cached record with `softTtl ≤ age < hardTtl`, evaluating
`get_github_info` reaches the expression `random.random()`; the module never
binds the name `random`, so the call fails with an unhandled NameError
instead of returning any payload. -/
theorem soft_window_raises_name_error (cfg : Config) (owner repository : String)
    (bg : Bool) (r : ℚ) (quota : Quota) (fetch : FetchOutcome) (now : Nat)
    (s : Store) (row : Row) (d0 : Details)
    (hfind : Store.find s (owner, repository) = some row)
    (hdict : row.details_json = .pyDict d0)
    (hsoft : cfg.cache_soft_ttl ≤ (now - row.update_time) / 60)
    (hhard : (now - row.update_time) / 60 < cfg.cache_hard_ttl) :
    get_github_info cfg owner repository bg r quota fetch now s =
      .error (.nameError "random") ∧
    module_bound_names.contains "random" = false := by
  refine ⟨?_, random_not_bound⟩
  rw [get_github_info_of_dict_read cfg owner repository bg r quota fetch now s _
    (read_of_find_dict owner repository now s row d0 hfind hdict)]
  have h1 : ¬ (now - row.update_time) / 60 < cfg.cache_soft_ttl :=
    Nat.not_lt.mpr hsoft
  simp [h1, hhard]

/-- C4 witness: a record of age 100 min with the default TTLs (60, 600)
lands in the soft window and the call raises NameError. -/
theorem soft_window_raises_name_error_witness :
    Store.find [(("o", "r"), ⟨0, .pyDict ⟨"r", "o", 7, 0⟩⟩)] ("o", "r") =
      some ⟨0, .pyDict ⟨"r", "o", 7, 0⟩⟩ ∧
    defaultConfig.cache_soft_ttl ≤ (6000 - 0) / 60 ∧
    (6000 - 0) / 60 < defaultConfig.cache_hard_ttl ∧
    (get_github_info defaultConfig "o" "r" true 0 ⟨5000, 4000⟩ .notFoundError 6000
        [(("o", "r"), ⟨0, .pyDict ⟨"r", "o", 7, 0⟩⟩)] =
      .error (.nameError "random") ∧
    module_bound_names.contains "random" = false) :=
  ⟨by decide, by decide, by decide,
    soft_window_raises_name_error defaultConfig "o" "r" true 0 ⟨5000, 4000⟩
      .notFoundError 6000 [(("o", "r"), ⟨0, .pyDict ⟨"r", "o", 7, 0⟩⟩)]
      ⟨0, .pyDict ⟨"r", "o", 7, 0⟩⟩ ⟨"r", "o", 7, 0⟩
      (by decide) (by decide) (by decide) (by decide)⟩

/-- C3: the code disagrees with the claim twice over.  The line-202 test,
with draw `r = 1/10` below `regenerateChance = 3/10`, evaluates to serving
the cached payload rather than refreshing (the comparison is inverted: the
refresh fraction over uniform draws is `1 - chance`, 0.7 for chance 0.3,
not 0.3); and the branch cannot even run, because `random` is not a bound
module name, so a soft-window request raises NameError. -/
theorem regenerate_comparison_inverted :
    soft_window_serves_cached (1 / 10) (3 / 10) = true ∧
    soft_window_serves_cached (5 / 10) (3 / 10) = false ∧
    module_bound_names.contains "random" = false ∧
    get_github_info ⟨60, 600, 3 / 10, 10⟩ "o" "r" false (1 / 10) ⟨5000, 4000⟩
        (.success "r" "o" 9) 6000 [(("o", "r"), ⟨0, .pyDict ⟨"r", "o", 7, 0⟩⟩)] =
      .error (.nameError "random") := by
  refine ⟨?_, ?_, by decide, by decide⟩
  · simp only [soft_window_serves_cached, decide_eq_true_eq]
    norm_num
  · simp only [soft_window_serves_cached, decide_eq_false_iff_not, not_lt]
    norm_num

/-- C6: for every cold key (no stored record), the upstream fetch is
invoked exactly once unless the remaining quota is below the absolute floor
of 10; the percentage-reserve threshold is never consulted on this path
(the configuration, `ratelimit_preserve` included, is arbitrary and the
result does not depend on it). -/
theorem cold_key_fetch_guarded_only_by_floor (cfg : Config)
    (owner repository : String) (bg : Bool) (r : ℚ) (quota : Quota)
    (fetch : FetchOutcome) (now : Nat) (s : Store)
    (hcold : Store.find s (owner, repository) = none) :
    get_github_info cfg owner repository bg r quota fetch now s =
      .ok ⟨(get_repository_info_from_github quota fetch).1,
           save_github_info_into_sqlite owner repository
             (get_repository_info_from_github quota fetch).1 now s, [],
           (get_repository_info_from_github quota fetch).2⟩ ∧
    (get_repository_info_from_github quota fetch).2 =
      (if quota.remaining < 10 then 0 else 1) := by
  constructor
  · exact get_github_info_of_falsy_read cfg owner repository bg r quota fetch now s
      (read_of_find_none owner repository now s hcold)
  · rcases Nat.lt_or_ge quota.remaining 10 with h | h
    · simp [get_repository_info_from_github, h]
    · have h2 : ¬ quota.remaining < 10 := Nat.not_lt.mpr h
      cases fetch <;> simp [get_repository_info_from_github, h2]

/-- C6 witness: empty store, remaining 4000 of 5000, reserve configured
absurdly high at 99 % — the cold fetch still happens (fetch count 1). -/
theorem cold_key_fetch_guarded_only_by_floor_witness :
    Store.find ([] : Store) ("o", "r") = none ∧
    (get_github_info ⟨60, 600, 10 / 100, 99⟩ "o" "r" true 0 ⟨5000, 4000⟩
        (.success "r" "o" 9) 1000 [] =
      .ok ⟨(get_repository_info_from_github ⟨5000, 4000⟩ (.success "r" "o" 9)).1,
           save_github_info_into_sqlite "o" "r"
             (get_repository_info_from_github ⟨5000, 4000⟩ (.success "r" "o" 9)).1
             1000 [], [],
           (get_repository_info_from_github ⟨5000, 4000⟩ (.success "r" "o" 9)).2⟩ ∧
    (get_repository_info_from_github ⟨5000, 4000⟩ (.success "r" "o" 9)).2 =
      (if (5000 : Nat) < 10 then 0 else 1)) := by
  refine ⟨by decide, ?_⟩
  have h := cold_key_fetch_guarded_only_by_floor ⟨60, 600, 10 / 100, 99⟩ "o" "r"
    true 0 ⟨5000, 4000⟩ (.success "r" "o" 9) 1000 [] (by decide)
  simpa using h

/-- C10: a stored record whose payload deserializes to the falsy value is
returned by the cache read as that falsy value, with no age attached, and
`get_github_info` then treats the key as cold: with the quota floor
satisfied it performs the upstream fetch exactly once, rewrites the record
with the fetch result, and returns that result — never the stored falsy
payload as cached data.  If the fetch fails again, the rewritten record is
falsy again, so every subsequent request repeats this. -/
theorem falsy_record_treated_as_cold (cfg : Config) (owner repository : String)
    (bg : Bool) (r : ℚ) (quota : Quota) (fetch : FetchOutcome) (now : Nat)
    (s : Store) (row : Row)
    (hfind : Store.find s (owner, repository) = some row)
    (hfalsy : row.details_json = .pyFalse)
    (hfloor : 10 ≤ quota.remaining) :
    get_saved_github_info_from_sqlite owner repository now s = .pyFalse ∧
    get_github_info cfg owner repository bg r quota fetch now s =
      .ok ⟨(get_repository_info_from_github quota fetch).1,
           save_github_info_into_sqlite owner repository
             (get_repository_info_from_github quota fetch).1 now s, [],
           (get_repository_info_from_github quota fetch).2⟩ ∧
    (get_repository_info_from_github quota fetch).2 = 1 ∧
    ((fetch = .notFoundError ∨ fetch = .privateRepo) →
      Store.find (save_github_info_into_sqlite owner repository
          (get_repository_info_from_github quota fetch).1 now s)
        (owner, repository) = some ⟨now, .pyFalse⟩) := by
  have hread := read_of_find_falsy owner repository now s row hfind hfalsy
  have h2 : ¬ quota.remaining < 10 := Nat.not_lt.mpr hfloor
  refine ⟨hread,
    get_github_info_of_falsy_read cfg owner repository bg r quota fetch now s hread,
    ?_, ?_⟩
  · cases fetch <;> simp [get_repository_info_from_github, h2]
  · intro hfail
    have hfr : (get_repository_info_from_github quota fetch).1 = .pyFalse := by
      rcases hfail with h | h <;> subst h <;>
        simp [get_repository_info_from_github, h2]
    rw [hfr]
    exact find_replaceInto_self _ _ _

/-- C10 witness: a record storing the falsy payload, quota ample, upstream
still missing: one fetch, record rewritten, still falsy afterwards. -/
theorem falsy_record_treated_as_cold_witness :
    Store.find [(("o", "r"), ⟨0, .pyFalse⟩)] ("o", "r") = some ⟨0, .pyFalse⟩ ∧
    (10 : Nat) ≤ 4000 ∧
    (get_saved_github_info_from_sqlite "o" "r" 6000 [(("o", "r"), ⟨0, .pyFalse⟩)] =
        .pyFalse ∧
      get_github_info defaultConfig "o" "r" true 0 ⟨5000, 4000⟩ .notFoundError 6000
          [(("o", "r"), ⟨0, .pyFalse⟩)] =
        .ok ⟨(get_repository_info_from_github ⟨5000, 4000⟩ .notFoundError).1,
             save_github_info_into_sqlite "o" "r"
               (get_repository_info_from_github ⟨5000, 4000⟩ .notFoundError).1
               6000 [(("o", "r"), ⟨0, .pyFalse⟩)], [],
             (get_repository_info_from_github ⟨5000, 4000⟩ .notFoundError).2⟩ ∧
      (get_repository_info_from_github ⟨5000, 4000⟩ .notFoundError).2 = 1 ∧
      ((FetchOutcome.notFoundError = FetchOutcome.notFoundError ∨
          FetchOutcome.notFoundError = FetchOutcome.privateRepo) →
        Store.find (save_github_info_into_sqlite "o" "r"
            (get_repository_info_from_github ⟨5000, 4000⟩ .notFoundError).1
            6000 [(("o", "r"), ⟨0, .pyFalse⟩)]) ("o", "r") =
          some ⟨6000, .pyFalse⟩)) :=
  ⟨by decide, by decide,
    falsy_record_treated_as_cold defaultConfig "o" "r" true 0 ⟨5000, 4000⟩
      .notFoundError 6000 [(("o", "r"), ⟨0, .pyFalse⟩)] ⟨0, .pyFalse⟩
      (by decide) (by decide) (by decide)⟩

/-- C1 counterexample: a cold key whose upstream lookup reports NotFound:
the call does return the falsy NotFound value, but the store — empty before
the call — afterwards holds a record for that key, so the cache store is
not left unchanged by the failed lookup. -/
theorem failed_lookup_writes_record_counterexample :
    Store.find ([] : Store) ("o", "r") = none ∧
    get_github_info defaultConfig "o" "r" false 0 ⟨5000, 4000⟩ .notFoundError
        1000 [] =
      .ok ⟨.pyFalse, [(("o", "r"), ⟨1000, .pyFalse⟩)], [], 1⟩ :=
  ⟨by decide, by decide⟩

/-- C1 (amended): for every cold key whose upstream lookup fails
(NotFoundError or a private repository) under a satisfied quota floor, the
falsy NotFound value is returned to the caller, but the store is not left
unchanged: a record holding the falsy payload is written for the key.  That
record reads back as falsy, so the failure is never served as cached data
(the key stays effectively cold). -/
theorem failed_lookup_returns_notfound_and_writes_falsy (cfg : Config)
    (owner repository : String) (bg : Bool) (r : ℚ) (quota : Quota)
    (fetch : FetchOutcome) (now : Nat) (s : Store)
    (hcold : Store.find s (owner, repository) = none)
    (hfloor : 10 ≤ quota.remaining)
    (hfail : fetch = .notFoundError ∨ fetch = .privateRepo) :
    get_github_info cfg owner repository bg r quota fetch now s =
      .ok ⟨.pyFalse,
           save_github_info_into_sqlite owner repository .pyFalse now s, [], 1⟩ ∧
    Store.find (save_github_info_into_sqlite owner repository .pyFalse now s)
      (owner, repository) = some ⟨now, .pyFalse⟩ := by
  have h2 : ¬ quota.remaining < 10 := Nat.not_lt.mpr hfloor
  have hfr : get_repository_info_from_github quota fetch = (.pyFalse, 1) := by
    rcases hfail with h | h <;> subst h <;>
      simp [get_repository_info_from_github, h2]
  constructor
  · rw [get_github_info_of_falsy_read cfg owner repository bg r quota fetch now s
      (read_of_find_none owner repository now s hcold), hfr]
  · exact find_replaceInto_self _ _ _

/-- C1 (amended) witness: concrete private repository on a cold key. -/
theorem failed_lookup_returns_notfound_and_writes_falsy_witness :
    Store.find ([] : Store) ("o", "r") = none ∧
    (get_github_info defaultConfig "o" "r" true 0 ⟨5000, 4000⟩ .privateRepo
        1000 [] =
      .ok ⟨.pyFalse, save_github_info_into_sqlite "o" "r" .pyFalse 1000 [], [], 1⟩ ∧
    Store.find (save_github_info_into_sqlite "o" "r" .pyFalse 1000 [])
      ("o", "r") = some ⟨1000, .pyFalse⟩) :=
  ⟨by decide,
    failed_lookup_returns_notfound_and_writes_falsy defaultConfig "o" "r" true 0
      ⟨5000, 4000⟩ .privateRepo 1000 [] (by decide) (by decide) (Or.inr rfl)⟩

/-- C2: a hard-stale record (age 700 min ≥ hard TTL 600), quota allowed
(80 % remaining), requested with a live BackgroundTasks object as every HTTP
handler passes one: the upstream fetch happens once and the fresh payload is
returned, but the store is untouched at return time, and the scheduled save
carries only two of the three required positional arguments of
`save_github_info_into_sqlite` (line 213 omits `owner`), so running it
raises TypeError and persists nothing — the next read still yields the old
payload at age 700, not the new payload at age 0.  The synchronous branch
(background_tasks falsy, not used by the HTTP handlers) does persist and
re-read at age 0, which is what the claim describes. -/
theorem background_refresh_never_persists :
    get_github_info defaultConfig "o" "r" true 0 ⟨5000, 4000⟩ (.success "r" "o" 9)
        42000 [(("o", "r"), ⟨0, .pyDict ⟨"r", "o", 7, 0⟩⟩)] =
      .ok ⟨.pyDict ⟨"r", "o", 9, 0⟩, [(("o", "r"), ⟨0, .pyDict ⟨"r", "o", 7, 0⟩⟩)],
           [[PyArg.str "r", PyArg.det (.pyDict ⟨"r", "o", 9, 0⟩)]], 1⟩ ∧
    run_scheduled_save [PyArg.str "r", PyArg.det (.pyDict ⟨"r", "o", 9, 0⟩)] 42000
        [(("o", "r"), ⟨0, .pyDict ⟨"r", "o", 7, 0⟩⟩)] = .error .typeError ∧
    get_saved_github_info_from_sqlite "o" "r" 42000
        [(("o", "r"), ⟨0, .pyDict ⟨"r", "o", 7, 0⟩⟩)] = .pyDict ⟨"r", "o", 7, 700⟩ ∧
    get_github_info defaultConfig "o" "r" false 0 ⟨5000, 4000⟩ (.success "r" "o" 9)
        42000 [(("o", "r"), ⟨0, .pyDict ⟨"r", "o", 7, 0⟩⟩)] =
      .ok ⟨.pyDict ⟨"r", "o", 9, 0⟩, [(("o", "r"), ⟨42000, .pyDict ⟨"r", "o", 9, 0⟩⟩)],
           [], 1⟩ ∧
    get_saved_github_info_from_sqlite "o" "r" 42000
        [(("o", "r"), ⟨42000, .pyDict ⟨"r", "o", 9, 0⟩⟩)] = .pyDict ⟨"r", "o", 9, 0⟩ :=
  ⟨by decide, by decide, by decide, by decide, by decide⟩

/-- C8 counterexample: with no cached record, a quota-floored request
(remaining 5 < 10) and a request for an absent repository (NotFoundError,
ample quota) surface exactly the same outcome — the 404 "Unable to find
repository" response; there is no distinct Unavailable outcome. -/
theorem vetoed_cold_equals_notfound_counterexample :
    repository_info defaultConfig "o" "r" 0 ⟨5000, 5⟩ (.success "r" "o" 3)
        1000 [] =
      .ok (.httpException404, [(("o", "r"), ⟨1000, .pyFalse⟩)], []) ∧
    repository_info defaultConfig "o" "r" 0 ⟨5000, 4000⟩ .notFoundError
        1000 [] =
      .ok (.httpException404, [(("o", "r"), ⟨1000, .pyFalse⟩)], []) :=
  ⟨by decide, by decide⟩

/-- C8 (amended): for every request on a key with no cached record whose
refresh is blocked by the quota floor, or whose upstream call fails, the
result surfaced to the caller is the same 404 response used for absent and
private subjects: the handler maps every falsy value to it, and no distinct
Unavailable outcome exists in the code. -/
theorem vetoed_or_failed_cold_surfaces_404 (cfg : Config)
    (owner repository : String) (r : ℚ) (quota : Quota) (fetch : FetchOutcome)
    (now : Nat) (s : Store)
    (hcold : Store.find s (owner, repository) = none)
    (hfail : quota.remaining < 10 ∨ fetch = .notFoundError ∨
      fetch = .privateRepo) :
    repository_info cfg owner repository r quota fetch now s =
      .ok (.httpException404,
           save_github_info_into_sqlite owner repository .pyFalse now s, []) := by
  have hfr : (get_repository_info_from_github quota fetch).1 = .pyFalse := by
    rcases hfail with h | h | h
    · simp [get_repository_info_from_github, h]
    · subst h
      by_cases h2 : quota.remaining < 10 <;>
        simp [get_repository_info_from_github, h2]
    · subst h
      by_cases h2 : quota.remaining < 10 <;>
        simp [get_repository_info_from_github, h2]
  unfold repository_info
  rw [get_github_info_of_falsy_read cfg owner repository true r quota fetch now s
    (read_of_find_none owner repository now s hcold), hfr]

/-- C8 (amended) witness: cold key, remaining 5 below the floor. -/
theorem vetoed_or_failed_cold_surfaces_404_witness :
    Store.find ([] : Store) ("o", "r") = none ∧
    (5 : Nat) < 10 ∧
    repository_info defaultConfig "o" "r" 0 ⟨5000, 5⟩ (.success "r" "o" 3)
        1000 [] =
      .ok (.httpException404,
           save_github_info_into_sqlite "o" "r" .pyFalse 1000 [], []) :=
  ⟨by decide, by decide,
    vetoed_or_failed_cold_surfaces_404 defaultConfig "o" "r" 0 ⟨5000, 5⟩
      (.success "r" "o" 3) 1000 [] (by decide) (Or.inl (by decide))⟩

end Gitstars
